import Mathlib

/-!
Shallow embedding of the core of the `cil-rcc-storage-tracker` scanner
(Rust sources under `src/scanner/src/`): the data model (`FileEntry`,
`ChunkMetadata`, `ScanManifest`), the manifest operations, the batching
stage of `Scanner::scan_parallel`, the `ParquetFileWriter`, and the
`RotatingParquetWriter` with its rotation, directory bookkeeping, resume
and finalize logic.

Modelling conventions:
* Machine integers become `Nat` / `Int` (no overflow is reachable in the
  modelled quantities).
* `std::collections::HashSet<String>` is modelled as a duplicate-free
  `List String` with an `insert` that is a no-op on present elements.
* Wall-clock reads (`SystemTime::now`) and the monotonic clock
  (`Instant`) are passed in explicitly: `now : Nat` is the monotonic
  clock value (so `elapsed = now - last_rotation`), `wnow : Int` is the
  wall clock, `fsize : Nat` is the size the filesystem reports for a
  closed chunk file.
* File-system side effects are reified as event traces (`WriterEvent`
  for the rotating writer, `FsOp` for `ScanManifest::save_to_file`),
  so that persistence points and their order are observable.
* The Rust functions return `anyhow::Result`; every failure in the
  modelled code paths is an I/O failure external to the logic (or, for
  `ScanManifest::save_to_file` inside `rotate`/`write_batch`, is
  swallowed with a warning), so the success path is modelled as a total
  function.  `FileEntry::from_path`, whose error path is part of the
  logic, is modelled with `Except`.
-/

/-- One record per filesystem object, from `src/scanner/src/models.rs`
(`struct FileEntry`). -/
structure FileEntry where
  path : String
  size : Nat
  modified_time : Int
  accessed_time : Int
  created_time : Option Int
  file_type : String
  inode : Nat
  permissions : Nat
  parent_path : String
  depth : Nat
  top_level_dir : String
deriving Repr, DecidableEq

/-- The values the Rust standard library reports for a path, used by
`FileEntry::from_path` (models.rs lines 51-82): the lossy path string,
`Path::parent`, `Path::extension`, the components of the path relative
to the scan root (`strip` of the root; `none` when the path is not
under the root), and the scan root's final component. -/
structure PathInfo where
  path_str : String
  parent : Option String
  ext : Option String
  rel_components : Option (List String)
  root_last_component : Option String
deriving Repr, DecidableEq

/-- The values `std::fs::Metadata` reports, used by
`FileEntry::from_path` (models.rs lines 84-113).  Each timestamp is
`none` when the read fails or the `duration_since(UNIX_EPOCH)`
conversion fails, and `some` seconds otherwise. -/
structure MetaInfo where
  is_dir : Bool
  len : Nat
  ino : Nat
  mode : Nat
  modified : Option Int
  accessed : Option Int
  created : Option Int
deriving Repr, DecidableEq

/-- `FileEntry::from_path` (models.rs lines 43-114).  `parent_path`
falls back to "/"; `depth` is the relative component count (0 when the
path is outside the root); `top_level_dir` is the first relative
component, falling back to the root's final component and then to
"root"; `file_type` is "directory" for directories and otherwise the
extension reported by `Path::extension` (unchanged), falling back to
"no_extension".  The `modified` and `accessed` timestamps are read
with `?` so their failure aborts construction; `created` is read with
`.ok()` so its failure only yields `created_time = none`. -/
def FileEntry.from_path (p : PathInfo) (m : MetaInfo) : Except String FileEntry :=
  let parent_path := p.parent.getD "/"
  let depth := (p.rel_components.map List.length).getD 0
  let top_level_dir :=
    match p.rel_components.bind List.head? with
    | some c => c
    | none => p.root_last_component.getD "root"
  let file_type := if m.is_dir then "directory" else p.ext.getD "no_extension"
  match m.modified with
  | none => Except.error "modified time unavailable"
  | some modified_time =>
    match m.accessed with
    | none => Except.error "accessed time unavailable"
    | some accessed_time =>
      Except.ok
        { path := p.path_str
          size := m.len
          modified_time := modified_time
          accessed_time := accessed_time
          created_time := m.created
          file_type := file_type
          inode := m.ino
          permissions := m.mode
          parent_path := parent_path
          depth := depth
          top_level_dir := top_level_dir }

/-- The batch-collecting loop of `Scanner::scan_parallel`
(scanner.rs lines 158-176): push each record onto the buffer; when the
buffer length reaches `batch_size`, emit it and start a fresh buffer;
when the record channel closes, emit any non-empty remainder. -/
def batcherLoop (batch_size : Nat) : List FileEntry → List FileEntry → List (List FileEntry)
  | buf, [] => if buf.isEmpty then [] else [buf]
  | buf, e :: rest =>
    let buf1 := buf ++ [e]
    if batch_size ≤ buf1.length then buf1 :: batcherLoop batch_size [] rest
    else batcherLoop batch_size buf1 rest

/-- The batching stage applied to the full record stream
(scanner.rs lines 158-176), starting from an empty buffer. -/
def runBatcher (batch_size : Nat) (records : List FileEntry) : List (List FileEntry) :=
  batcherLoop batch_size [] records

/-- A batch is homogeneous when all its entries carry the same
`top_level_dir`. -/
def batchHomogeneous (b : List FileEntry) : Bool :=
  match b with
  | [] => true
  | x :: r => r.all (fun y => y.top_level_dir == x.top_level_dir)

/-- Metadata about one chunk file, from `src/scanner/src/rotating_writer.rs`
(`struct ChunkMetadata`, lines 27-43).  The source documents
`chunk_number` as "Chunk number (0-indexed)". -/
structure ChunkMetadata where
  chunk_number : Nat
  file_path : String
  row_count : Nat
  file_size : Nat
  created_at : Int
deriving Repr, DecidableEq

/-- Manifest tracking all chunks, from rotating_writer.rs
(`struct ScanManifest`, lines 46-76).  The Rust
`HashSet<String>` field `completed_top_level_dirs` is modelled as a
duplicate-free list. -/
structure ScanManifest where
  scan_path : String
  total_rows : Nat
  chunk_count : Nat
  chunks : List ChunkMetadata
  scan_start : Int
  scan_end : Option Int
  completed : Bool
  completed_top_level_dirs : List String
  current_top_level_dir : Option String
deriving Repr, DecidableEq

/-- `HashSet::insert` on the list model: a no-op when the element is
already present, otherwise the element is added. -/
def insertSet (l : List String) (d : String) : List String :=
  if l.contains d then l else d :: l

/-- `ScanManifest::new` (rotating_writer.rs lines 79-97); `wnow` is the
wall-clock read `SystemTime::now`. -/
def ScanManifest.new (scan_path : String) (wnow : Int) : ScanManifest :=
  { scan_path := scan_path
    total_rows := 0
    chunk_count := 0
    chunks := []
    scan_start := wnow
    scan_end := none
    completed := false
    completed_top_level_dirs := []
    current_top_level_dir := none }

/-- `ScanManifest::is_dir_completed` (rotating_writer.rs lines 111-113). -/
def ScanManifest.is_dir_completed (m : ScanManifest) (dir : String) : Bool :=
  m.completed_top_level_dirs.contains dir

/-- `ScanManifest::start_directory` (rotating_writer.rs lines 116-118). -/
def ScanManifest.start_directory (m : ScanManifest) (dir : String) : ScanManifest :=
  { m with current_top_level_dir := some dir }

/-- `ScanManifest::complete_current_directory` (rotating_writer.rs lines
121-125): `take` the current directory, if any, and insert it into the
completed set. -/
def ScanManifest.complete_current_directory (m : ScanManifest) : ScanManifest :=
  match m.current_top_level_dir with
  | some dir =>
    { m with
      current_top_level_dir := none
      completed_top_level_dirs := insertSet m.completed_top_level_dirs dir }
  | none => m

/-- `ScanManifest::add_chunk` (rotating_writer.rs lines 127-131). -/
def ScanManifest.add_chunk (m : ScanManifest) (metadata : ChunkMetadata) : ScanManifest :=
  { m with
    total_rows := m.total_rows + metadata.row_count
    chunk_count := m.chunk_count + 1
    chunks := m.chunks ++ [metadata] }

/-- `ScanManifest::complete` (rotating_writer.rs lines 133-142). -/
def ScanManifest.complete (m : ScanManifest) (wnow : Int) : ScanManifest :=
  { m with scan_end := some wnow, completed := true }

/-- The file-system operations a manifest save performs, reified so the
persistence pattern of `ScanManifest::save_to_file` is observable. -/
inductive FsOp where
  | createFile (path : String)
  | writeAll (path : String)
  | renameFile (src : String) (dst : String)
deriving Repr, DecidableEq

/-- `ScanManifest::save_to_file` (rotating_writer.rs lines 144-155) as a
trace of file-system operations: serialize (pure), then
`File::create(path)` on the destination itself, then `write_all` to it.
No temporary file and no rename appear in the source. -/
def ScanManifest.saveToFileOps (_m : ScanManifest) (path : String) : List FsOp :=
  [FsOp.createFile path, FsOp.writeAll path]

/-- Modelled from the spec (not from the source): the spec's
"atomic against crashes" persistence pattern — write the serialized
JSON to a temporary file in the same directory and rename it over the
destination.  Used only to compare `ScanManifest.saveToFileOps`
against the spec's words. -/
def atomicSaveTrace (ops : List FsOp) (dst : String) : Prop :=
  ∃ tmp, tmp ≠ dst ∧ ops = [FsOp.createFile tmp, FsOp.writeAll tmp, FsOp.renameFile tmp dst]

/-- `struct RotatingWriterConfig` (rotating_writer.rs lines 14-24);
`time_interval` is the `Duration` in seconds. -/
structure RotatingWriterConfig where
  base_output_path : String
  rows_per_chunk : Nat
  time_interval : Nat
deriving Repr, DecidableEq

/-- `struct ParquetFileWriter` (src/scanner/src/writer.rs lines 18-22),
reduced to the row counter the logic observes; the Arrow writer and
schema are the file-system side. -/
structure ParquetFileWriter where
  rows_written : Nat
deriving Repr, DecidableEq

/-- `ParquetFileWriter::write_batch` (writer.rs lines 68-80): empty
slices return immediately; otherwise the entries are encoded and
`rows_written` grows by the batch length. -/
def ParquetFileWriter.write_batch (w : ParquetFileWriter) (entries : List FileEntry) :
    ParquetFileWriter :=
  if entries.isEmpty then w
  else { w with rows_written := w.rows_written + entries.length }

/-- Left-pad the decimal representation of `n` to four digits with
zeros, as the `{:04}` format of `get_chunk_path` does
(rotating_writer.rs line 232). -/
def pad4 (n : Nat) : String :=
  if n < 10 then "000" ++ toString n
  else if n < 100 then "00" ++ toString n
  else if n < 1000 then "0" ++ toString n
  else toString n

/-- `struct RotatingParquetWriter` (rotating_writer.rs lines 159-167).
`last_rotation : Nat` is the monotonic-clock value captured by
`Instant::now()` at the last rotation. -/
structure RotatingParquetWriter where
  config : RotatingWriterConfig
  current_writer : Option ParquetFileWriter
  current_chunk : Nat
  current_chunk_rows : Nat
  last_rotation : Nat
  manifest : ScanManifest
  last_top_level_dir : Option String
deriving Repr, DecidableEq

/-- `RotatingParquetWriter::get_chunk_path` (rotating_writer.rs lines
226-233): `<stem>_chunk_<NNNN>.<ext>` built from the base output path.
The base path's stem/extension split performed by `Path::file_stem` and
`Path::extension` is abstracted by formatting around the base path
itself; no claim depends on the path string. -/
def RotatingParquetWriter.get_chunk_path (w : RotatingParquetWriter) (chunk_number : Nat) :
    String :=
  w.config.base_output_path ++ "_chunk_" ++ pad4 chunk_number

/-- `RotatingParquetWriter::new` (rotating_writer.rs lines 170-180). -/
def RotatingParquetWriter.new (config : RotatingWriterConfig) (scan_path : String)
    (now : Nat) (wnow : Int) : RotatingParquetWriter :=
  { config := config
    current_writer := none
    current_chunk := 0
    current_chunk_rows := 0
    last_rotation := now
    manifest := ScanManifest.new scan_path wnow
    last_top_level_dir := none }

/-- The mutation `RotatingParquetWriter::resume` applies to a manifest
loaded from disk (rotating_writer.rs lines 190-192): reset the
completion flag and the end timestamp. -/
def resumeManifestReset (m : ScanManifest) : ScanManifest :=
  { m with completed := false, scan_end := none }

/-- `RotatingParquetWriter::resume` (rotating_writer.rs lines 183-216).
`loaded` is the manifest parsed from the manifest file when it exists
(`none` models a missing manifest file).  The next chunk counter starts
at the loaded manifest's `chunk_count`. -/
def RotatingParquetWriter.resume (config : RotatingWriterConfig) (scan_path : String)
    (loaded : Option ScanManifest) (now : Nat) (wnow : Int) : RotatingParquetWriter :=
  let manifest :=
    match loaded with
    | some m => resumeManifestReset m
    | none => ScanManifest.new scan_path wnow
  { config := config
    current_writer := none
    current_chunk := manifest.chunk_count
    current_chunk_rows := 0
    last_rotation := now
    manifest := manifest
    last_top_level_dir := none }

/-- `RotatingParquetWriter::should_rotate` (rotating_writer.rs lines
236-248): rotate when the row limit is reached or the time interval
since the last rotation has elapsed; `now` is the monotonic clock. -/
def RotatingParquetWriter.should_rotate (w : RotatingParquetWriter) (now : Nat) : Bool :=
  if w.config.rows_per_chunk ≤ w.current_chunk_rows then true
  else if w.config.time_interval ≤ now - w.last_rotation then true
  else false

/-- Observable side effects of the rotating writer: a manifest persist
(`save_to_file`, carrying the manifest value saved), the close of a
chunk (carrying the metadata recorded), and the open of a new chunk
file (`ParquetFileWriter::new`, carrying its chunk number). -/
inductive WriterEvent where
  | saveManifest (m : ScanManifest)
  | closeChunk (md : ChunkMetadata)
  | openChunk (n : Nat)
deriving Repr, DecidableEq

/-- `RotatingParquetWriter::rotate` (rotating_writer.rs lines 251-308):
if a writer is open, close it, record its `ChunkMetadata` under the
*current* chunk number, add it to the manifest and persist the
manifest; then increment the chunk counter, zero the row counter, reset
the rotation clock and open a writer for the *incremented* chunk
number.  `fsize` is the file size the filesystem reports for the closed
chunk; `wnow` is the wall clock. -/
def RotatingParquetWriter.rotate (w : RotatingParquetWriter) (now : Nat) (wnow : Int)
    (fsize : Nat) : RotatingParquetWriter × List WriterEvent :=
  let closed :=
    match w.current_writer with
    | some writer =>
      let md : ChunkMetadata :=
        { chunk_number := w.current_chunk
          file_path := w.get_chunk_path w.current_chunk
          row_count := writer.rows_written
          file_size := fsize
          created_at := wnow }
      let m1 := w.manifest.add_chunk md
      ({ w with current_writer := none, manifest := m1 },
        [WriterEvent.closeChunk md, WriterEvent.saveManifest m1])
    | none => (w, [])
  let w1 := closed.1
  let w2 :=
    { w1 with
      current_chunk := w1.current_chunk + 1
      current_chunk_rows := 0
      last_rotation := now
      current_writer := some { rows_written := 0 } }
  (w2, closed.2 ++ [WriterEvent.openChunk w2.current_chunk])

/-- The "Track directory transitions" block at the head of
`RotatingParquetWriter::write_batch` (rotating_writer.rs lines
325-349): inspect the first entry's `top_level_dir`; when it differs
from `last_top_level_dir`, complete the current manifest directory,
start the new one and persist the manifest; when no directory was in
progress, only start the new one; in all cases record the batch's
directory in `last_top_level_dir`. -/
def trackDirectoryTransitions (w : RotatingParquetWriter) (entries : List FileEntry) :
    RotatingParquetWriter × List WriterEvent :=
  match entries.head? with
  | none => (w, [])
  | some first_entry =>
    let current_dir := first_entry.top_level_dir
    match w.last_top_level_dir with
    | some last_dir =>
      if last_dir ≠ current_dir then
        let m2 := (w.manifest.complete_current_directory).start_directory current_dir
        ({ w with manifest := m2, last_top_level_dir := some current_dir },
          [WriterEvent.saveManifest m2])
      else
        ({ w with last_top_level_dir := some current_dir }, [])
    | none =>
      ({ w with
          manifest := w.manifest.start_directory current_dir
          last_top_level_dir := some current_dir }, [])

/-- The tail of `RotatingParquetWriter::write_batch` after the
directory tracking (rotating_writer.rs lines 351-367): "Initialize
first writer if needed" (rotate when no writer is open), "Write batch
to current writer first" (the whole batch goes to the one current
writer), and "Check if we need to rotate after writing". -/
def writeToCurrentChunk (u : RotatingParquetWriter) (entries : List FileEntry)
    (now : Nat) (wnow : Int) (fsize : Nat) : RotatingParquetWriter × List WriterEvent :=
  let opened :=
    if u.current_writer.isNone then u.rotate now wnow fsize
    else (u, [])
  let w2 := opened.1
  let w3 :=
    match w2.current_writer with
    | some writer =>
      { w2 with
        current_writer := some (writer.write_batch entries)
        current_chunk_rows := w2.current_chunk_rows + entries.length }
    | none => w2
  let rotated :=
    if w3.should_rotate now then w3.rotate now wnow fsize
    else (w3, [])
  (rotated.1, opened.2 ++ rotated.2)

/-- `RotatingParquetWriter::write_batch` (rotating_writer.rs lines
320-368): return immediately on an empty batch; otherwise track the
directory transition, then open the first writer if needed, write the
whole batch to the current writer, and only then rotate when
`should_rotate` fires. -/
def RotatingParquetWriter.write_batch (w : RotatingParquetWriter) (entries : List FileEntry)
    (now : Nat) (wnow : Int) (fsize : Nat) : RotatingParquetWriter × List WriterEvent :=
  if entries.isEmpty then (w, [])
  else
    let tracked := trackDirectoryTransitions w entries
    let written := writeToCurrentChunk tracked.1 entries now wnow fsize
    (written.1, tracked.2 ++ written.2)

/-- `RotatingParquetWriter::finalize` (rotating_writer.rs lines
395-444): close the open writer if any, recording its chunk metadata;
mark the manifest complete; persist it.  The source never calls
`complete_current_directory` here. -/
def RotatingParquetWriter.finalize (w : RotatingParquetWriter) (wnow : Int) (fsize : Nat) :
    ScanManifest × List WriterEvent :=
  let closed :=
    match w.current_writer with
    | some writer =>
      let md : ChunkMetadata :=
        { chunk_number := w.current_chunk
          file_path := w.get_chunk_path w.current_chunk
          row_count := writer.rows_written
          file_size := fsize
          created_at := wnow }
      (w.manifest.add_chunk md, [WriterEvent.closeChunk md])
    | none => (w.manifest, [])
  let m2 := closed.1.complete wnow
  (m2, closed.2 ++ [WriterEvent.saveManifest m2])

/-- The `saveManifest` events of a writer trace. -/
def saveEvents (evs : List WriterEvent) : List ScanManifest :=
  evs.filterMap (fun ev =>
    match ev with
    | WriterEvent.saveManifest m => some m
    | _ => none)

/-- The `closeChunk` events of a writer trace. -/
def closedChunks (evs : List WriterEvent) : List ChunkMetadata :=
  evs.filterMap (fun ev =>
    match ev with
    | WriterEvent.closeChunk md => some md
    | _ => none)

/-- The `openChunk` events of a writer trace. -/
def openedChunks (evs : List WriterEvent) : List Nat :=
  evs.filterMap (fun ev =>
    match ev with
    | WriterEvent.openChunk n => some n
    | _ => none)

/-- The manifest bookkeeping invariant of the spec: `total_rows` is the
sum of the recorded chunk row counts and `chunk_count` is the number of
recorded chunks. -/
def manifestInv (m : ScanManifest) : Prop :=
  m.total_rows = (m.chunks.map (fun c => c.row_count)).sum ∧
  m.chunk_count = m.chunks.length

/-- State invariant of the rotating writer between `write_batch` calls:
an open writer's `rows_written` agrees with `current_chunk_rows`, a
missing writer means an empty current chunk, and the current chunk is
strictly below the rotation threshold (so in particular
`rows_per_chunk ≥ 1`). -/
def writerInv (w : RotatingParquetWriter) : Prop :=
  (∀ pw, w.current_writer = some pw → pw.rows_written = w.current_chunk_rows) ∧
  (w.current_writer = none → w.current_chunk_rows = 0) ∧
  w.current_chunk_rows < w.config.rows_per_chunk

/-- The number of rows in the current chunk just after a batch is
written into it: the rows already present (zero when a fresh chunk had
to be opened for this batch) plus the batch length. -/
def rowsAfterWrite (w : RotatingParquetWriter) (entries : List FileEntry) : Nat :=
  (if w.current_writer.isSome then w.current_chunk_rows else 0) + entries.length

/-- The monotonic-clock instant at which the chunk receiving the batch
was opened: the recorded `last_rotation` when a writer is already open,
or `now` itself when the batch's own call opens the first chunk. -/
def chunkOpenInstant (w : RotatingParquetWriter) (now : Nat) : Nat :=
  if w.current_writer.isSome then w.last_rotation else now

/-- Test fixture: a file entry under top-level directory `d`. -/
def mkEntry (p d : String) : FileEntry :=
  { path := p
    size := 0
    modified_time := 0
    accessed_time := 0
    created_time := none
    file_type := "txt"
    inode := 0
    permissions := 420
    parent_path := "/scan"
    depth := 1
    top_level_dir := d }

/-- Fixture entry in top-level directory "A". -/
def entryA : FileEntry := mkEntry "/scan/A/f1.txt" "A"

/-- Fixture entry in top-level directory "B". -/
def entryB : FileEntry := mkEntry "/scan/B/f2.txt" "B"

/-- Fixture entry in top-level directory "C". -/
def entryC : FileEntry := mkEntry "/scan/C/f3.txt" "C"

/-- Fixture configuration with thresholds too large to trigger
rotation in the small traces below. -/
def cfgTest : RotatingWriterConfig :=
  { base_output_path := "scan_output.parquet", rows_per_chunk := 100, time_interval := 3600 }

/-- Fixture configuration with `rows_per_chunk = 5`. -/
def cfgFive : RotatingWriterConfig :=
  { base_output_path := "scan_output.parquet", rows_per_chunk := 5, time_interval := 3600 }

/-- Fixture: a fresh rotating writer over `cfgFive`. -/
def wFive : RotatingParquetWriter := RotatingParquetWriter.new cfgFive "/scan" 0 0

/-- Fixture: a three-entry batch. -/
def batch3 : List FileEntry := [entryA, entryA, entryA]

/-- Fixture chunk metadata. -/
def cmdSample : ChunkMetadata :=
  { chunk_number := 0
    file_path := "scan_output.parquet_chunk_0000"
    row_count := 1000
    file_size := 50000
    created_at := 1700000000 }

/-- Fixture: the writer state after a fresh writer has processed one
batch from top-level directory "A". -/
def wAfterA : RotatingParquetWriter :=
  ((RotatingParquetWriter.new cfgTest "/scan" 0 0).write_batch [entryA] 0 0 0).1

/-- Fixture: the final manifest of a fresh one-batch scan followed by
`finalize`. -/
def freshRunManifest : ScanManifest :=
  (((RotatingParquetWriter.new cfgTest "/scan" 0 0).write_batch [entryA] 0 0 0).1.finalize 0 0).1

/-- Fixture: the final manifest and trace of a fresh scan over the
top-level directories A, B, C (one batch each), then `finalize`. -/
def abcRun : ScanManifest × List WriterEvent :=
  let w0 := RotatingParquetWriter.new cfgTest "/scan" 0 0
  let r1 := w0.write_batch [entryA] 0 0 0
  let r2 := r1.1.write_batch [entryB] 0 0 0
  let r3 := r2.1.write_batch [entryC] 0 0 0
  r3.1.finalize 0 0

/-- Fixture path info for a file with an upper-case extension. -/
def pathUpper : PathInfo :=
  { path_str := "/scan/A/report.TXT"
    parent := some "/scan/A"
    ext := some "TXT"
    rel_components := some ["A", "report.TXT"]
    root_last_component := some "scan" }

/-- Fixture metadata with all three timestamps readable. -/
def metaFileOk : MetaInfo :=
  { is_dir := false
    len := 10
    ino := 7
    mode := 420
    modified := some 100
    accessed := some 200
    created := some 300 }

/-- Fixture metadata whose creation timestamp is unavailable. -/
def metaCreatedFail : MetaInfo :=
  { is_dir := false
    len := 10
    ino := 7
    mode := 420
    modified := some 100
    accessed := some 200
    created := none }

/-- The entry `FileEntry.from_path` builds from `pathUpper` and
`metaFileOk`. -/
def entryUpper : FileEntry :=
  { path := "/scan/A/report.TXT"
    size := 10
    modified_time := 100
    accessed_time := 200
    created_time := some 300
    file_type := "TXT"
    inode := 7
    permissions := 420
    parent_path := "/scan/A"
    depth := 2
    top_level_dir := "A" }

/-- C1: the claim states that the batching stage of
`Scanner::scan_parallel` flushes its buffer whenever the next record's
`top_level_dir` differs from the buffered ones, so that every emitted
batch is homogeneous in `top_level_dir`.  The source's batch thread
(scanner.rs lines 158-176) flushes only when the buffer reaches
`batch_size` and never inspects `top_level_dir`: with `batch_size = 2`
and the record stream A-entry, B-entry it emits the single mixed batch
`[A-entry, B-entry]`, which is not homogeneous. -/
theorem C1_batcher_emits_mixed_batch :
    runBatcher 2 [entryA, entryB] = [[entryA, entryB]] ∧
    batchHomogeneous [entryA, entryB] = false := by
  exact ⟨rfl, rfl⟩

/-- C2: the claim states `chunks[i].chunk_number = i` with the first
chunk numbered 0 and resume continuing at the previous `chunk_count`.
In the source, `rotate` increments `current_chunk` *before* opening a
chunk (rotating_writer.rs line 295), so a fresh scan's single chunk is
recorded with `chunk_number = 1` (not 0) while `chunk_count = 1`, and
resuming from that manifest opens chunk number 2 (not 1). -/
theorem C2_chunk_numbers_are_one_indexed :
    freshRunManifest.chunks.map (fun c => c.chunk_number) = [1] ∧
    freshRunManifest.chunk_count = 1 ∧
    openedChunks
        ((RotatingParquetWriter.resume cfgTest "/scan" (some freshRunManifest) 0 0).write_batch
          [entryA] 0 0 0).2 = [2] := by
  exact ⟨rfl, rfl, rfl⟩

/-- C3: the claim states that a clean `finalize` moves the last
in-progress top-level directory into `completed_top_level_dirs`, so a
scan over A, B, C ends with `completed_top_level_dirs = {A, B, C}`.
The source's `finalize` (rotating_writer.rs lines 395-444) never calls
`complete_current_directory`: after batches from A, B, C the final
manifest still has `current_top_level_dir = C`, the completed set is
only `{A, B}`, yet `completed = true`. -/
theorem C3_finalize_leaves_last_directory_incomplete :
    abcRun.1.completed_top_level_dirs = ["B", "A"] ∧
    abcRun.1.current_top_level_dir = some "C" ∧
    abcRun.1.completed = true ∧
    abcRun.1.is_dir_completed "C" = false := by
  exact ⟨rfl, rfl, rfl, rfl⟩

/-- C4: the claim states that every manifest persistence writes the
JSON to a temporary file in the destination's directory and renames it
over the destination.  `ScanManifest::save_to_file`
(rotating_writer.rs lines 144-155) instead calls `File::create` on the
destination itself and writes in place: its operation trace is
create-destination, write-destination, with no rename, so it does not
match the spec's atomic temp-file-plus-rename pattern. -/
theorem C4_manifest_save_not_atomic :
    (ScanManifest.new "/scan" 0).saveToFileOps "scan_output_manifest.json" =
      [FsOp.createFile "scan_output_manifest.json",
       FsOp.writeAll "scan_output_manifest.json"] ∧
    ¬ atomicSaveTrace
        ((ScanManifest.new "/scan" 0).saveToFileOps "scan_output_manifest.json")
        "scan_output_manifest.json" := by
  refine ⟨rfl, ?_⟩
  rintro ⟨tmp, _hne, heq⟩
  simp [ScanManifest.saveToFileOps] at heq

/-- C10: `RotatingParquetWriter::write_batch` on an empty slice
(rotating_writer.rs lines 321-323) returns immediately: the writer
state — chunk counters, manifest, `last_top_level_dir` — is unchanged
and no chunk is opened, written or rotated (the event trace is empty);
likewise `ParquetFileWriter::write_batch` (writer.rs lines 69-71)
leaves `rows_written` unchanged on an empty slice. -/
theorem C10_empty_batch_is_noop (w : RotatingParquetWriter) (now : Nat) (wnow : Int)
    (fsize : Nat) (pw : ParquetFileWriter) :
    w.write_batch [] now wnow fsize = (w, []) ∧ pw.write_batch [] = pw := by
  exact ⟨rfl, rfl⟩

/-- C7: the manifest bookkeeping invariant — `total_rows` equals the
sum of the recorded chunks' `row_count` and `chunk_count` equals the
number of recorded chunks — is established by `ScanManifest::new` and
preserved by every mutating manifest operation: `add_chunk`,
`start_directory`, `complete_current_directory`, `complete`, and the
reset `resume` applies to a loaded manifest (a manifest loaded on
resume satisfies the invariant because only manifests persisted by
this writer are loaded). -/
theorem C7_manifest_totals_invariant (p : String) (wnow : Int) (m : ScanManifest)
    (md : ChunkMetadata) (d : String) :
    manifestInv (ScanManifest.new p wnow) ∧
    (manifestInv m → manifestInv (m.add_chunk md)) ∧
    (manifestInv m → manifestInv (m.start_directory d)) ∧
    (manifestInv m → manifestInv m.complete_current_directory) ∧
    (manifestInv m → manifestInv (m.complete wnow)) ∧
    (manifestInv m → manifestInv (resumeManifestReset m)) := by
  refine ⟨?_, ?_, ?_, ?_, ?_, ?_⟩
  · exact ⟨rfl, rfl⟩
  · rintro ⟨h1, h2⟩
    constructor
    · simp [ScanManifest.add_chunk, h1]
    · simp [ScanManifest.add_chunk, h2]
  · rintro ⟨h1, h2⟩
    exact ⟨h1, h2⟩
  · rintro ⟨h1, h2⟩
    unfold ScanManifest.complete_current_directory
    cases m.current_top_level_dir with
    | none => exact ⟨h1, h2⟩
    | some dir => exact ⟨h1, h2⟩
  · rintro ⟨h1, h2⟩
    exact ⟨h1, h2⟩
  · rintro ⟨h1, h2⟩
    exact ⟨h1, h2⟩

/-- Witness for C7 at concrete inputs: the invariant holds for a fresh
manifest after adding a concrete chunk. -/
theorem C7_manifest_totals_invariant_witness :
    manifestInv ((ScanManifest.new "/scan" 0).add_chunk cmdSample) :=
  (C7_manifest_totals_invariant "/scan" 0 (ScanManifest.new "/scan" 0) cmdSample "A").2.1
    ⟨rfl, rfl⟩

/-- C8 counterexample: the claim states that `file_type` is the
*lowercased* final extension for non-directories.  `FileEntry::from_path`
(models.rs lines 76-82) never lowercases: for a file whose path has
extension "TXT" the built entry's `file_type` is "TXT", which differs
from "txt", the lowercased form the claim prescribes. -/
theorem C8_extension_not_lowercased :
    (FileEntry.from_path pathUpper metaFileOk).toOption.map (fun e => e.file_type) =
      some "TXT" ∧
    ("TXT" : String) ≠ "txt" := by
  refine ⟨rfl, ?_⟩
  decide

/-- C8 (amended): for every entry `FileEntry::from_path` builds, if the
metadata marks a directory then `file_type = "directory"`; otherwise
`file_type` is the path's final extension *as reported, case
preserved*; and a non-directory path without extension gets
`file_type = "no_extension"`. -/
theorem C8_file_type_rule (p : PathInfo) (m : MetaInfo) (e : FileEntry)
    (h : FileEntry.from_path p m = Except.ok e) :
    (m.is_dir = true → e.file_type = "directory") ∧
    (m.is_dir = false → ∀ x, p.ext = some x → e.file_type = x) ∧
    (m.is_dir = false → p.ext = none → e.file_type = "no_extension") := by
  unfold FileEntry.from_path at h
  cases hm : m.modified with
  | none => rw [hm] at h; exact absurd h (by simp)
  | some a =>
    cases ha : m.accessed with
    | none => rw [hm, ha] at h; exact absurd h (by simp)
    | some b =>
      rw [hm, ha] at h
      simp only [Except.ok.injEq] at h
      subst h
      refine ⟨?_, ?_, ?_⟩
      · intro hd
        simp [hd]
      · intro hd x hx
        simp [hd, hx]
      · intro hd hx
        simp [hd, hx]

/-- Witness for C8 at concrete inputs: the entry built from a path with
extension "TXT" has `file_type = "TXT"`. -/
theorem C8_file_type_rule_witness : entryUpper.file_type = "TXT" :=
  (C8_file_type_rule pathUpper metaFileOk entryUpper rfl).2.1 rfl "TXT" rfl

/-- C9 counterexample: the claim states `FileEntry::from_path` errors
exactly when the modified, accessed, *or created* timestamp cannot be
read.  In the source (models.rs lines 95-99) the creation timestamp is
read with `.ok()`: when it is unavailable the construction still
succeeds, with `created_time = None`. -/
theorem C9_created_failure_not_fatal :
    (FileEntry.from_path pathUpper metaCreatedFail).toOption.isSome = true ∧
    (FileEntry.from_path pathUpper metaCreatedFail).toOption.map (fun e => e.created_time) =
      some none := by
  exact ⟨rfl, rfl⟩

/-- C9 (amended): `FileEntry::from_path` fails exactly when the
modified or accessed timestamp cannot be read or converted to seconds
since the Unix epoch (so the caller counts an error and skips the
entity); a failure to read the creation timestamp is not fatal — the
entry is built with `created_time` absent, and in general
`created_time` is exactly the optional creation timestamp the platform
reports. -/
theorem C9_timestamp_error_rule (p : PathInfo) (m : MetaInfo) :
    ((FileEntry.from_path p m).toOption.isSome = (m.modified.isSome && m.accessed.isSome)) ∧
    (∀ a b, m.modified = some a → m.accessed = some b →
      (FileEntry.from_path p m).toOption.map (fun e => e.created_time) = some m.created) := by
  constructor
  · cases hm : m.modified with
    | none => simp [FileEntry.from_path, hm, Except.toOption]
    | some a =>
      cases ha : m.accessed with
      | none => simp [FileEntry.from_path, hm, ha, Except.toOption]
      | some b => simp [FileEntry.from_path, hm, ha, Except.toOption]
  · intro a b hm ha
    simp [FileEntry.from_path, hm, ha, Except.toOption]

/-- Witness for C9 at concrete inputs: with all timestamps readable the
construction succeeds and `created_time` is the reported creation
timestamp. -/
theorem C9_timestamp_error_rule_witness :
    (FileEntry.from_path pathUpper metaFileOk).toOption.map (fun e => e.created_time) =
      some (some 300) :=
  (C9_timestamp_error_rule pathUpper metaFileOk).2 100 200 rfl rfl

/-- C6 counterexample: the claim states that when no directory is in
progress, `write_batch` sets `current_top_level_dir` and *persists the
manifest*.  In the source (rotating_writer.rs lines 343-346) the
first-directory branch only calls `start_directory` and never saves:
processing the first batch from a fresh writer sets
`current_top_level_dir = "A"` but the whole call performs no manifest
persistence at all. -/
theorem C6_first_directory_not_persisted :
    (RotatingParquetWriter.new cfgTest "/scan" 0 0).last_top_level_dir = none ∧
    ((RotatingParquetWriter.new cfgTest "/scan" 0 0).write_batch [entryA] 0 0 0).1.manifest.current_top_level_dir
      = some "A" ∧
    saveEvents ((RotatingParquetWriter.new cfgTest "/scan" 0 0).write_batch [entryA] 0 0 0).2
      = [] := by
  exact ⟨rfl, rfl, rfl⟩

/-- An element just inserted into the set model is a member. -/
theorem mem_insertSet_self (l : List String) (d : String) : d ∈ insertSet l d := by
  unfold insertSet
  by_cases h : l.contains d = true
  · rw [if_pos h]
    exact List.elem_iff.mp h
  · rw [if_neg h]
    exact List.mem_cons_self d l

/-- C6 (amended): for every non-empty batch processed by
`RotatingParquetWriter::write_batch`, with `d` the first entry's
`top_level_dir`: if no directory is in progress
(`last_top_level_dir = None`), `current_top_level_dir` is set to `d`
but the manifest is *not* persisted at this point; if `d` differs from
the in-progress directory `d_prev`, then `d_prev` is moved into
`completed_top_level_dirs`, `current_top_level_dir` is set to `d`, and
the manifest is persisted — and this directory bookkeeping happens
before the batch itself is written (its events precede all others of
the call). -/
theorem C6_directory_transition_rule (w : RotatingParquetWriter) (entries : List FileEntry)
    (e : FileEntry) (now : Nat) (wnow : Int) (fsize : Nat)
    (hhead : entries.head? = some e) :
    (w.last_top_level_dir = none →
      trackDirectoryTransitions w entries =
        ({ w with
            manifest := w.manifest.start_directory e.top_level_dir
            last_top_level_dir := some e.top_level_dir }, [])) ∧
    (∀ dp, w.last_top_level_dir = some dp → dp ≠ e.top_level_dir →
      trackDirectoryTransitions w entries =
        ({ w with
            manifest := (w.manifest.complete_current_directory).start_directory e.top_level_dir
            last_top_level_dir := some e.top_level_dir },
          [WriterEvent.saveManifest
            ((w.manifest.complete_current_directory).start_directory e.top_level_dir)])) ∧
    (∀ dp, w.last_top_level_dir = some dp → w.manifest.current_top_level_dir = some dp →
      dp ≠ e.top_level_dir →
      dp ∈ (trackDirectoryTransitions w entries).1.manifest.completed_top_level_dirs ∧
      (trackDirectoryTransitions w entries).1.manifest.current_top_level_dir =
        some e.top_level_dir) ∧
    (∃ rest, (w.write_batch entries now wnow fsize).2 =
      (trackDirectoryTransitions w entries).2 ++ rest) := by
  have hne : entries.isEmpty = false := by
    cases entries with
    | nil => simp at hhead
    | cons a l => rfl
  refine ⟨?_, ?_, ?_, ?_⟩
  · intro hl
    unfold trackDirectoryTransitions
    rw [hhead, hl]
  · intro dp hl hd
    unfold trackDirectoryTransitions
    rw [hhead, hl]
    simp [hd]
  · intro dp hl hcur hd
    unfold trackDirectoryTransitions
    rw [hhead, hl]
    simp only [ne_eq, hd, not_false_eq_true, if_true, ite_true]
    refine ⟨?_, ?_⟩
    · simp only [ScanManifest.start_directory, ScanManifest.complete_current_directory, hcur]
      exact mem_insertSet_self _ _
    · simp [ScanManifest.start_directory, ScanManifest.complete_current_directory, hcur]
  · unfold RotatingParquetWriter.write_batch
    simp only [hne, Bool.false_eq_true, if_false]
    exact ⟨_, rfl⟩

/-- Witness for C6 at concrete inputs: after a batch from directory
"A", processing a batch from directory "B" moves "A" into the
completed set and makes "B" the current directory. -/
theorem C6_directory_transition_rule_witness :
    "A" ∈ (trackDirectoryTransitions wAfterA [entryB]).1.manifest.completed_top_level_dirs ∧
    (trackDirectoryTransitions wAfterA [entryB]).1.manifest.current_top_level_dir =
      some "B" :=
  (C6_directory_transition_rule wAfterA [entryB] entryB 0 0 0 rfl).2.2.1 "A" rfl rfl
    (by decide)

/-- The directory-tracking phase touches only the manifest and
`last_top_level_dir`: the chunk state, clock and configuration are
unchanged, and it closes no chunk. -/
theorem trackDirectoryTransitions_chunk_state (w : RotatingParquetWriter)
    (entries : List FileEntry) :
    (trackDirectoryTransitions w entries).1.config = w.config ∧
    (trackDirectoryTransitions w entries).1.current_writer = w.current_writer ∧
    (trackDirectoryTransitions w entries).1.current_chunk_rows = w.current_chunk_rows ∧
    (trackDirectoryTransitions w entries).1.last_rotation = w.last_rotation ∧
    closedChunks (trackDirectoryTransitions w entries).2 = [] := by
  unfold trackDirectoryTransitions
  cases entries.head? with
  | none => exact ⟨rfl, rfl, rfl, rfl, rfl⟩
  | some e =>
    cases w.last_top_level_dir with
    | none => exact ⟨rfl, rfl, rfl, rfl, rfl⟩
    | some d =>
      dsimp only
      by_cases h : d ≠ e.top_level_dir
      · rw [if_pos h]
        exact ⟨rfl, rfl, rfl, rfl, rfl⟩
      · rw [if_neg h]
        exact ⟨rfl, rfl, rfl, rfl, rfl⟩

/-- Behaviour of the post-tracking tail of `write_batch` on a
non-empty batch, from any state satisfying the writer invariant: the
whole batch lands in one chunk (at most one chunk close occurs, and a
closed chunk's `row_count` already includes the entire batch), the
post-write rotation fires exactly when the row or time threshold is
reached on the post-write state, and the invariant is preserved. -/
theorem writeToCurrentChunk_spec (u : RotatingParquetWriter) (entries : List FileEntry)
    (now : Nat) (wnow : Int) (fsize : Nat)
    (hne : entries.isEmpty = false)
    (hinv : writerInv u) :
    writerInv (writeToCurrentChunk u entries now wnow fsize).1 ∧
    (closedChunks (writeToCurrentChunk u entries now wnow fsize).2 = [] ∨
      ∃ md, closedChunks (writeToCurrentChunk u entries now wnow fsize).2 = [md] ∧
        md.row_count = rowsAfterWrite u entries) ∧
    (closedChunks (writeToCurrentChunk u entries now wnow fsize).2 ≠ [] ↔
      (u.config.rows_per_chunk ≤ rowsAfterWrite u entries ∨
        u.config.time_interval ≤ now - chunkOpenInstant u now)) := by
  obtain ⟨hsync, hnone, hlt⟩ := hinv
  obtain ⟨cfg, cw, cc, ccr, lr, man, ltd⟩ := u
  cases cw with
  | none =>
    have hcr : ccr = 0 := hnone rfl
    subst hcr
    simp only [writeToCurrentChunk, RotatingParquetWriter.rotate,
      RotatingParquetWriter.should_rotate, ParquetFileWriter.write_batch, hne,
      Bool.false_eq_true, if_false, ite_false, Option.isNone_none, if_true, ite_true,
      rowsAfterWrite, chunkOpenInstant, writerInv, closedChunks] at *
    split_ifs with h1 h2 <;>
      simp_all [List.filterMap, Nat.sub_self]
  | some pw =>
    have hs : pw.rows_written = ccr := hsync pw rfl
    obtain ⟨prw⟩ := pw
    simp only at hs
    subst hs
    simp only [writeToCurrentChunk, RotatingParquetWriter.rotate,
      RotatingParquetWriter.should_rotate, ParquetFileWriter.write_batch, hne,
      Bool.false_eq_true, if_false, ite_false, Option.isNone_some, Option.isSome_some,
      rowsAfterWrite, chunkOpenInstant, writerInv, closedChunks] at *
    split_ifs with h1 h2 <;>
      simp_all [List.filterMap] <;>
      omega

/-- C5: for every non-empty batch `RotatingParquetWriter::write_batch`
processes, the rotation check runs only after the whole batch has been
written to the current chunk: at most one chunk close occurs in the
call and a closed chunk's recorded `row_count` equals the row count
*after* the entire batch was written into it (a batch is never split
across two chunks); the post-write rotation occurs exactly when
`rows_in_current_chunk ≥ rows_per_chunk` or the elapsed time since the
current chunk was opened reaches `time_interval`; and consequently,
when every batch has length at most `B`, the rows written into a chunk
can exceed `rows_per_chunk` by at most `B - 1`. -/
theorem C5_rotation_after_whole_batch (w : RotatingParquetWriter) (entries : List FileEntry)
    (now : Nat) (wnow : Int) (fsize : Nat) (B : Nat)
    (hne : entries ≠ []) (hinv : writerInv w) (hB : entries.length ≤ B) :
    writerInv (w.write_batch entries now wnow fsize).1 ∧
    (closedChunks (w.write_batch entries now wnow fsize).2 = [] ∨
      ∃ md, closedChunks (w.write_batch entries now wnow fsize).2 = [md] ∧
        md.row_count = rowsAfterWrite w entries) ∧
    (closedChunks (w.write_batch entries now wnow fsize).2 ≠ [] ↔
      (w.config.rows_per_chunk ≤ rowsAfterWrite w entries ∨
        w.config.time_interval ≤ now - chunkOpenInstant w now)) ∧
    rowsAfterWrite w entries ≤ w.config.rows_per_chunk + B - 1 := by
  have hne' : entries.isEmpty = false := by
    cases entries with
    | nil => exact absurd rfl hne
    | cons a l => rfl
  obtain ⟨hcfg, hcw, hccr, hlr, hclosed⟩ := trackDirectoryTransitions_chunk_state w entries
  set t := trackDirectoryTransitions w entries with ht
  have htinv : writerInv t.1 := by
    refine ⟨?_, ?_, ?_⟩
    · intro pw hpw
      rw [hcw] at hpw
      rw [hccr]
      exact hinv.1 pw hpw
    · intro hpw
      rw [hcw] at hpw
      rw [hccr]
      exact hinv.2.1 hpw
    · rw [hccr, hcfg]
      exact hinv.2.2
  obtain ⟨sinv, sclose, siff⟩ := writeToCurrentChunk_spec t.1 entries now wnow fsize hne' htinv
  have hrows : rowsAfterWrite t.1 entries = rowsAfterWrite w entries := by
    unfold rowsAfterWrite
    rw [hcw, hccr]
  have hopen : chunkOpenInstant t.1 now = chunkOpenInstant w now := by
    unfold chunkOpenInstant
    rw [hcw, hlr]
  have hwb : w.write_batch entries now wnow fsize =
      ((writeToCurrentChunk t.1 entries now wnow fsize).1,
        t.2 ++ (writeToCurrentChunk t.1 entries now wnow fsize).2) := by
    unfold RotatingParquetWriter.write_batch
    simp only [hne', Bool.false_eq_true, if_false]
  have hclosed2 : closedChunks (w.write_batch entries now wnow fsize).2 =
      closedChunks (writeToCurrentChunk t.1 entries now wnow fsize).2 := by
    rw [hwb]
    show (t.2 ++ (writeToCurrentChunk t.1 entries now wnow fsize).2).filterMap _ =
      closedChunks (writeToCurrentChunk t.1 entries now wnow fsize).2
    rw [List.filterMap_append]
    have : closedChunks t.2 = [] := hclosed
    unfold closedChunks at this
    rw [this]
    rfl
  refine ⟨?_, ?_, ?_, ?_⟩
  · rw [hwb]
    exact sinv
  · rw [hclosed2]
    rw [hrows] at sclose
    exact sclose
  · rw [hclosed2]
    rw [hrows, hopen, hcfg] at siff
    exact siff
  · have hl := hinv.2.2
    unfold rowsAfterWrite
    cases hcw0 : w.current_writer with
    | none =>
      simp only [Option.isSome_none, Bool.false_eq_true, if_false]
      omega
    | some pw =>
      simp only [Option.isSome_some, if_true, ite_true]
      omega

/-- Witness for C5 at concrete inputs: a fresh writer with
`rows_per_chunk = 5` processing a 3-entry batch. -/
theorem C5_rotation_after_whole_batch_witness :
    writerInv (wFive.write_batch batch3 0 0 0).1 ∧
    (closedChunks (wFive.write_batch batch3 0 0 0).2 = [] ∨
      ∃ md, closedChunks (wFive.write_batch batch3 0 0 0).2 = [md] ∧
        md.row_count = rowsAfterWrite wFive batch3) ∧
    (closedChunks (wFive.write_batch batch3 0 0 0).2 ≠ [] ↔
      (wFive.config.rows_per_chunk ≤ rowsAfterWrite wFive batch3 ∨
        wFive.config.time_interval ≤ 0 - chunkOpenInstant wFive 0)) ∧
    rowsAfterWrite wFive batch3 ≤ wFive.config.rows_per_chunk + 3 - 1 :=
  C5_rotation_after_whole_batch wFive batch3 0 0 0 3 (by decide)
    (by
      refine ⟨?_, ?_, ?_⟩
      · intro pw h
        exact Option.noConfusion h
      · intro _
        rfl
      · decide)
    (by decide)
